import Mathlib

/-!
Verification of the Actuator Control Core of rs-power-trigger.

The embedding follows src/src/main.rs. ColorState and its methods
(increment, decrement, get_color, transform, target_reached,
compare_to_target) are translated directly; u32 channel values are
modelled as Nat, with a separate checked variant modelling u32
arithmetic panics via Option. The Rust methods take mutable references
but never write through them, so all of them are pure here. The state
computed by transition_color (called step, following the spec) and the
inner while-loop of main are modelled as pure functions; the fallible
set_duty writes are modelled with Except.
-/

namespace PowerTrigger

/-- The Color enum of main.rs. -/
inductive Color where
  | Red
  | Green
  | Blue
deriving DecidableEq

/-- The ColorState struct of main.rs: one u32 duty value per channel. -/
structure ColorState where
  r : Nat
  g : Nat
  b : Nat
deriving DecidableEq

/-- The TransitionCommands struct of main.rs. -/
structure TransitionCommands where
  should_transform_red : Bool
  should_transform_green : Bool
  should_transform_blue : Bool
deriving DecidableEq

/-- ColorState::get_color. -/
def ColorState.get_color (s : ColorState) (color : Color) : Nat :=
  match color with
  | Color.Red => s.r
  | Color.Green => s.g
  | Color.Blue => s.b

/-- ColorState::increment: (value + 1).min(target). -/
def ColorState.increment (s : ColorState) (color : Color) (target : Nat) : Nat :=
  Nat.min (s.get_color color + 1) target

/-- ColorState::decrement: (value - 1).min(target). -/
def ColorState.decrement (s : ColorState) (color : Color) (target : Nat) : Nat :=
  Nat.min (s.get_color color - 1) target

/-- ColorState::transform: equal leaves the value, greater goes through
decrement, less goes through increment, in exactly this branch order. -/
def ColorState.transform (s : ColorState) (target : Nat) (color : Color) : Nat :=
  if s.get_color color = target then s.get_color color
  else if s.get_color color > target then s.decrement color target
  else if s.get_color color < target then s.increment color target
  else s.get_color color

/-- ColorState::target_reached: value >= target. -/
def ColorState.target_reached (s : ColorState) (target : Nat) (color : Color) : Bool :=
  decide (target ≤ s.get_color color)

/-- ColorState::compare_to_target. -/
def ColorState.compare_to_target (s : ColorState) (target_state : ColorState) : TransitionCommands :=
  { should_transform_red := !(s.target_reached target_state.r Color.Red)
    should_transform_green := !(s.target_reached target_state.g Color.Green)
    should_transform_blue := !(s.target_reached target_state.b Color.Blue) }

/-- Field selection on TransitionCommands by channel. -/
def TransitionCommands.get (tc : TransitionCommands) (color : Color) : Bool :=
  match color with
  | Color.Red => tc.should_transform_red
  | Color.Green => tc.should_transform_green
  | Color.Blue => tc.should_transform_blue

/-- The PartialEq impl of ColorState: component-wise equality. -/
def ColorState.eq (a b : ColorState) : Bool :=
  a.r == b.r && a.g == b.g && a.b == b.b

/-- The convergence check of the inner loop of main: the loop runs while
current_state != target_state, so it stops exactly when ColorState.eq holds. -/
def has_converged (current target : ColorState) : Bool :=
  ColorState.eq current target

/-- The pure state computed by one call of transition_color: transform
applied to each channel with the corresponding target component. -/
def step (previous_state target_state : ColorState) : ColorState :=
  { r := previous_state.transform target_state.r Color.Red
    g := previous_state.transform target_state.g Color.Green
    b := previous_state.transform target_state.b Color.Blue }

/-- n iterations of the per-tick step, as performed by the inner while-loop. -/
def stepN (target : ColorState) : Nat → ColorState → ColorState
  | 0, current => current
  | n + 1, current => stepN target n (step current target)

/-- Channel-level view of transform, acting on a bare value. -/
def transform_val (value target : Nat) : Nat :=
  if value = target then value
  else if value > target then Nat.min (value - 1) target
  else if value < target then Nat.min (value + 1) target
  else value

/-- Channel-level iteration of transform_val. -/
def transform_iter (target : Nat) : Nat → Nat → Nat
  | 0, value => value
  | n + 1, value => transform_iter target n (transform_val value target)

/-- Largest u32 value: channel values live in u32 in the source. -/
def u32Max : Nat := 4294967295

/-- u32 addition as performed by Rust, panicking (none) on overflow. -/
def checked_add (a b : Nat) : Option Nat :=
  if a + b ≤ u32Max then some (a + b) else none

/-- u32 subtraction as performed by Rust, panicking (none) on underflow. -/
def checked_sub (a b : Nat) : Option Nat :=
  if b ≤ a then some (a - b) else none

/-- ColorState::increment with u32 overflow made explicit. -/
def ColorState.increment_checked (s : ColorState) (color : Color) (target : Nat) : Option Nat :=
  (checked_add (s.get_color color) 1).map (fun v => Nat.min v target)

/-- ColorState::decrement with u32 underflow made explicit. -/
def ColorState.decrement_checked (s : ColorState) (color : Color) (target : Nat) : Option Nat :=
  (checked_sub (s.get_color color) 1).map (fun v => Nat.min v target)

/-- ColorState::transform with u32 arithmetic panics made explicit. -/
def ColorState.transform_checked (s : ColorState) (target : Nat) (color : Color) : Option Nat :=
  if s.get_color color = target then some (s.get_color color)
  else if s.get_color color > target then s.decrement_checked color target
  else if s.get_color color < target then s.increment_checked color target
  else some (s.get_color color)

/-- One transition_color state computation with u32 panics made explicit. -/
def step_checked (previous_state target_state : ColorState) : Option ColorState := do
  let r ← previous_state.transform_checked target_state.r Color.Red
  let g ← previous_state.transform_checked target_state.g Color.Green
  let b ← previous_state.transform_checked target_state.b Color.Blue
  some { r := r, g := g, b := b }

/-- All three channels of a state are valid u32 values. -/
def ColorState.bounded (s : ColorState) : Prop :=
  s.r ≤ u32Max ∧ s.g ≤ u32Max ∧ s.b ≤ u32Max

/-- All three channels of a state lie in the duty range of the channel. -/
def ColorState.in_range (s : ColorState) (max_duty : Nat) : Prop :=
  s.r ≤ max_duty ∧ s.g ≤ max_duty ∧ s.b ≤ max_duty

/-- Absolute difference of two channel values. -/
def channel_dist (a b : Nat) : Nat :=
  Nat.max (a - b) (b - a)

/-- Maximum over the three channels of the absolute difference. -/
def max_dist (s t : ColorState) : Nat :=
  Nat.max (channel_dist s.r t.r) (Nat.max (channel_dist s.g t.g) (channel_dist s.b t.b))

/-- set_color of main.rs: three fallible set_duty writes sequenced with
the question-mark operator, then Ok. -/
def set_color {ε : Type} (red green blue : Nat → Except ε Unit)
    (r g b : Nat) : Except ε Unit := do
  red r
  green g
  blue b
  pure ()

/-- transition_color of main.rs: computes the next state and performs the
set_color write, whose failure is propagated. -/
def transition_color {ε : Type} (red green blue : Nat → Except ε Unit)
    (previous_state target_state : ColorState) : Except ε ColorState := do
  set_color red green blue (step previous_state target_state).r
    (step previous_state target_state).g (step previous_state target_state).b
  pure (step previous_state target_state)

/-- The inner while-loop of main with explicit fuel: while the current
state differs from the target, run transition_color; a write failure
short-circuits the loop. -/
def transition_loop {ε : Type} (red green blue : Nat → Except ε Unit)
    (target : ColorState) : Nat → ColorState → Except ε ColorState
  | 0, current => Except.ok current
  | n + 1, current =>
    if ColorState.eq current target then Except.ok current
    else do
      let next ← transition_color red green blue current target
      transition_loop red green blue target n next

theorem transform_eq_val (s : ColorState) (target : Nat) (c : Color) :
    s.transform target c = transform_val (s.get_color c) target := by
  cases c <;> rfl

theorem step_components (s t : ColorState) :
    step s t = ColorState.mk (transform_val s.r t.r) (transform_val s.g t.g)
      (transform_val s.b t.b) := rfl

theorem transform_val_of_eq (target : Nat) : transform_val target target = target := by
  unfold transform_val
  simp

theorem transform_val_of_gt (value target : Nat) (h : target < value) :
    transform_val value target = target := by
  unfold transform_val
  rw [if_neg (Nat.ne_of_gt h), if_pos h]
  exact Nat.min_eq_right (Nat.le_pred_of_lt h)

theorem transform_val_of_lt (value target : Nat) (h : value < target) :
    transform_val value target = value + 1 := by
  unfold transform_val
  rw [if_neg (Nat.ne_of_lt h), if_neg (Nat.not_lt.mpr (Nat.le_of_lt h)), if_pos h]
  exact Nat.min_eq_left (Nat.succ_le_of_lt h)

theorem stepN_components (t : ColorState) :
    ∀ (n : Nat) (s : ColorState),
      stepN t n s = ColorState.mk (transform_iter t.r n s.r) (transform_iter t.g n s.g)
        (transform_iter t.b n s.b) := by
  intro n
  induction n with
  | zero => intro s; rfl
  | succ n ih => intro s; exact ih (step s t)

theorem transform_iter_fixed (target : Nat) : ∀ n, transform_iter target n target = target := by
  intro n
  induction n with
  | zero => rfl
  | succ n ih =>
    show transform_iter target n (transform_val target target) = target
    rw [transform_val_of_eq]
    exact ih

theorem transform_iter_conv (target : Nat) :
    ∀ n value, channel_dist value target ≤ n → transform_iter target n value = target := by
  intro n
  induction n with
  | zero =>
    intro value h
    have h2 := Nat.max_le.mp h
    have hv : value = target := by omega
    rw [hv]
    rfl
  | succ n ih =>
    intro value h
    have h2 := Nat.max_le.mp h
    show transform_iter target n (transform_val value target) = target
    rcases Nat.lt_trichotomy value target with hlt | heq | hgt
    · rw [transform_val_of_lt value target hlt]
      apply ih
      refine Nat.max_le.mpr ⟨?_, ?_⟩ <;> omega
    · rw [heq, transform_val_of_eq]
      exact transform_iter_fixed target n
    · rw [transform_val_of_gt value target hgt]
      apply ih
      refine Nat.max_le.mpr ⟨?_, ?_⟩ <;> omega

theorem colorEq_iff (a b : ColorState) :
    ColorState.eq a b = true ↔ (a.r = b.r ∧ a.g = b.g ∧ a.b = b.b) := by
  simp [ColorState.eq, and_assoc]

theorem transform_val_le (value target M : Nat) (hv : value ≤ M) (ht : target ≤ M) :
    transform_val value target ≤ M := by
  unfold transform_val
  split
  · exact hv
  · split
    · exact le_trans (Nat.min_le_right _ _) ht
    · split
      · exact le_trans (Nat.min_le_right _ _) ht
      · exact hv

theorem transform_checked_some (s : ColorState) (target : Nat) (c : Color)
    (hv : s.get_color c ≤ u32Max) (ht : target ≤ u32Max) :
    s.transform_checked target c = some (s.transform target c) := by
  by_cases h1 : s.get_color c = target
  · simp [ColorState.transform_checked, ColorState.transform, h1]
  · by_cases h2 : target < s.get_color c
    · have hpos : 1 ≤ s.get_color c := Nat.succ_le_of_lt (Nat.lt_of_le_of_lt (Nat.zero_le _) h2)
      simp [ColorState.transform_checked, ColorState.transform, h1, h2,
        ColorState.decrement_checked, ColorState.decrement, checked_sub, hpos]
    · have h3 : s.get_color c < target := by omega
      have hadd : s.get_color c + 1 ≤ u32Max := by omega
      simp [ColorState.transform_checked, ColorState.transform, h1, h2, h3,
        ColorState.increment_checked, ColorState.increment, checked_add, hadd]

theorem set_color_error_of_any {ε : Type} (red green blue : Nat → Except ε Unit)
    (r g b : Nat) (e : ε)
    (h : red r = Except.error e
      ∨ (red r = Except.ok () ∧ green g = Except.error e)
      ∨ (red r = Except.ok () ∧ green g = Except.ok () ∧ blue b = Except.error e)) :
    set_color red green blue r g b = Except.error e := by
  rcases h with h | ⟨h1, h2⟩ | ⟨h1, h2, h3⟩
  · unfold set_color
    rw [h]
    rfl
  · unfold set_color
    rw [h1, h2]
    rfl
  · unfold set_color
    rw [h1, h2, h3]
    rfl

/-- Claim C1 (code evaluation at the failing input): from channel value 5
with target 0, one transform call returns 0, not the value 4 that a
decrement by exactly one floored at the target would give. The decrement
path computes Nat.min (value - 1) target, which equals the target itself. -/
theorem c1_decrement_is_not_by_one :
    (ColorState.mk 5 0 0).transform 0 Color.Red = 0 ∧
    ¬ (ColorState.mk 5 0 0).transform 0 Color.Red = 5 - 1 := by
  decide

/-- Claim C2 (code evaluation at the failing input): starting from
the state r 1, g 6, b 9 with target all zero, the loop converges after a
single step, not nine: has_converged is false initially and already true
after one application of step. -/
theorem c2_converges_in_one_step :
    has_converged (ColorState.mk 1 6 9) (ColorState.mk 0 0 0) = false ∧
    stepN (ColorState.mk 0 0 0) 1 (ColorState.mk 1 6 9) = ColorState.mk 0 0 0 ∧
    has_converged (stepN (ColorState.mk 0 0 0) 1 (ColorState.mk 1 6 9))
      (ColorState.mk 0 0 0) = true := by
  decide

/-- Claim C3: whenever the current value of a channel is strictly greater
than its target, a single transform call on that channel returns exactly
the target value, however far apart the two are. -/
theorem c3_decrement_reaches_target (s : ColorState) (target : Nat) (c : Color)
    (h : target < s.get_color c) : s.transform target c = target := by
  rw [transform_eq_val]
  exact transform_val_of_gt (s.get_color c) target h

theorem c3_witness :
    2 < (ColorState.mk 9 0 0).get_color Color.Red ∧
    (ColorState.mk 9 0 0).transform 2 Color.Red = 2 :=
  ⟨by decide, c3_decrement_reaches_target (ColorState.mk 9 0 0) 2 Color.Red (by decide)⟩

/-- Claim C4: for every pair of u32-valued states, the checked step (u32
overflow and underflow modelled as none) succeeds and agrees with the
unchecked step: the branch order of transform invokes decrement only when
the value strictly exceeds the target, so the subtraction never underflows
and the step computation is total. -/
theorem c4_step_total_and_panic_free (current target : ColorState)
    (hc : current.bounded) (ht : target.bounded) :
    step_checked current target = some (step current target) := by
  obtain ⟨h1, h2, h3⟩ := hc
  obtain ⟨g1, g2, g3⟩ := ht
  have e1 := transform_checked_some current target.r Color.Red h1 g1
  have e2 := transform_checked_some current target.g Color.Green h2 g2
  have e3 := transform_checked_some current target.b Color.Blue h3 g3
  simp [step_checked, e1, e2, e3, step]

theorem c4_witness :
    (ColorState.mk 0 7 4294967295).bounded ∧
    (ColorState.mk 4294967295 7 0).bounded ∧
    step_checked (ColorState.mk 0 7 4294967295) (ColorState.mk 4294967295 7 0) =
      some (step (ColorState.mk 0 7 4294967295) (ColorState.mk 4294967295 7 0)) :=
  ⟨by constructor <;> simp [u32Max], by constructor <;> simp [u32Max],
    c4_step_total_and_panic_free (ColorState.mk 0 7 4294967295)
      (ColorState.mk 4294967295 7 0)
      ⟨by simp [u32Max], by simp [u32Max], by simp [u32Max]⟩
      ⟨by simp [u32Max], by simp [u32Max], by simp [u32Max]⟩⟩

/-- Claim C5: when the convergence check holds, that is when the state
equals its target on all three channels, any number of further step
applications leaves the state unchanged. -/
theorem c5_step_idempotent_at_convergence (s t : ColorState) (n : Nat)
    (h : has_converged s t = true) : stepN t n s = s := by
  obtain ⟨h1, h2, h3⟩ := (colorEq_iff s t).mp h
  rw [stepN_components, h1, h2, h3, transform_iter_fixed, transform_iter_fixed,
    transform_iter_fixed, ← h1, ← h2, ← h3]

theorem c5_witness :
    has_converged (ColorState.mk 3 4 5) (ColorState.mk 3 4 5) = true ∧
    stepN (ColorState.mk 3 4 5) 7 (ColorState.mk 3 4 5) = ColorState.mk 3 4 5 :=
  ⟨by decide, c5_step_idempotent_at_convergence (ColorState.mk 3 4 5)
    (ColorState.mk 3 4 5) 7 (by decide)⟩

/-- Claim C6: if every channel of the current and of the target state is
at most max_duty, then every channel of the state produced by one step is
also at most max_duty (and at least 0, trivially for Nat), so every duty
value the loop writes stays in range. -/
theorem c6_step_preserves_range (current target : ColorState) (max_duty : Nat)
    (hc : current.in_range max_duty) (ht : target.in_range max_duty) :
    (step current target).in_range max_duty := by
  obtain ⟨h1, h2, h3⟩ := hc
  obtain ⟨g1, g2, g3⟩ := ht
  exact ⟨transform_val_le current.r target.r max_duty h1 g1,
    transform_val_le current.g target.g max_duty h2 g2,
    transform_val_le current.b target.b max_duty h3 g3⟩

theorem c6_witness :
    (ColorState.mk 0 500 1000).in_range 1000 ∧
    (ColorState.mk 1000 499 0).in_range 1000 ∧
    (step (ColorState.mk 0 500 1000) (ColorState.mk 1000 499 0)).in_range 1000 :=
  ⟨⟨by decide, by decide, by decide⟩, ⟨by decide, by decide, by decide⟩,
    c6_step_preserves_range (ColorState.mk 0 500 1000) (ColorState.mk 1000 499 0) 1000
      ⟨by decide, by decide, by decide⟩ ⟨by decide, by decide, by decide⟩⟩

/-- Claim C7: the inner transition loop terminates: after at most the
maximum over the three channels of the absolute difference between
current and target values, iterated stepping has reached the target. -/
theorem c7_loop_terminates (current target : ColorState) (n : Nat)
    (h : max_dist current target ≤ n) : stepN target n current = target := by
  have hm := Nat.max_le.mp h
  have hm2 := Nat.max_le.mp hm.2
  rw [stepN_components, transform_iter_conv target.r n current.r hm.1,
    transform_iter_conv target.g n current.g hm2.1,
    transform_iter_conv target.b n current.b hm2.2]

theorem c7_witness :
    max_dist (ColorState.mk 1 6 9) (ColorState.mk 0 0 0) ≤ 9 ∧
    stepN (ColorState.mk 0 0 0) 9 (ColorState.mk 1 6 9) = ColorState.mk 0 0 0 :=
  ⟨by decide, c7_loop_terminates (ColorState.mk 1 6 9) (ColorState.mk 0 0 0) 9 (by decide)⟩

/-- Claim C8: the convergence check that ends the inner loop is true
exactly when the current state equals the target component-wise on r, g
and b. -/
theorem c8_convergence_is_componentwise_eq (a b : ColorState) :
    has_converged a b = true ↔ (a.r = b.r ∧ a.g = b.g ∧ a.b = b.b) :=
  colorEq_iff a b

/-- Claim C9: if any of the three duty writes performed during a step
fails, the error propagates through set_color and transition_color, and
the transition loop stops with that error instead of continuing. -/
theorem c9_write_failure_is_fatal {ε : Type} (red green blue : Nat → Except ε Unit)
    (current target : ColorState) (e : ε) (n : Nat)
    (hrun : has_converged current target = false)
    (hfail : red (step current target).r = Except.error e
      ∨ (red (step current target).r = Except.ok ()
          ∧ green (step current target).g = Except.error e)
      ∨ (red (step current target).r = Except.ok ()
          ∧ green (step current target).g = Except.ok ()
          ∧ blue (step current target).b = Except.error e)) :
    transition_loop red green blue target (n + 1) current = Except.error e := by
  have hset : set_color red green blue (step current target).r (step current target).g
      (step current target).b = Except.error e :=
    set_color_error_of_any red green blue _ _ _ e hfail
  have htc : transition_color red green blue current target = Except.error e := by
    unfold transition_color
    rw [hset]
    rfl
  have hne : ColorState.eq current target = false := hrun
  simp only [transition_loop, hne, Bool.false_eq_true, if_false]
  rw [htc]
  rfl

theorem c9_witness :
    has_converged (ColorState.mk 1 6 9) (ColorState.mk 0 0 0) = false ∧
    transition_loop (fun _ => Except.error 42) (fun _ => Except.ok ())
      (fun _ => Except.ok ()) (ColorState.mk 0 0 0) 4 (ColorState.mk 1 6 9) =
      Except.error 42 :=
  ⟨by decide, c9_write_failure_is_fatal (fun _ => Except.error 42) (fun _ => Except.ok ())
    (fun _ => Except.ok ()) (ColorState.mk 1 6 9) (ColorState.mk 0 0 0) 42 3
    (by decide) (Or.inl rfl)⟩

/-- Claim C10: when a channel is strictly above its target, target_reached
is true for it, so compare_to_target reports that channel as not needing
transformation even though its value differs from the target. -/
theorem c10_overshoot_counts_as_reached (s t : ColorState) (c : Color)
    (h : t.get_color c < s.get_color c) :
    s.target_reached (t.get_color c) c = true ∧
    (s.compare_to_target t).get c = false ∧
    s.get_color c ≠ t.get_color c := by
  refine ⟨?_, ?_, Nat.ne_of_gt h⟩
  · simp [ColorState.target_reached, Nat.le_of_lt h]
  · cases c <;>
      simp [ColorState.compare_to_target, TransitionCommands.get,
        ColorState.target_reached, Nat.le_of_lt h] <;>
      exact Nat.le_of_lt h

theorem c10_witness :
    (ColorState.mk 2 0 0).get_color Color.Red < (ColorState.mk 7 0 0).get_color Color.Red ∧
    ((ColorState.mk 7 0 0).target_reached ((ColorState.mk 2 0 0).get_color Color.Red)
        Color.Red = true ∧
      ((ColorState.mk 7 0 0).compare_to_target (ColorState.mk 2 0 0)).get Color.Red = false ∧
      (ColorState.mk 7 0 0).get_color Color.Red ≠ (ColorState.mk 2 0 0).get_color Color.Red) :=
  ⟨by decide, c10_overshoot_counts_as_reached (ColorState.mk 7 0 0)
    (ColorState.mk 2 0 0) Color.Red (by decide)⟩

end PowerTrigger
